import Mathlib

/-!
Verification of the Orata_mapper spatial REST gateway (FastAPI + PostGIS).

The definitions below are a shallow embedding of the Python source:

* `src/app/api/spatial.py` — feature CRUD endpoints, `validate_table_name`,
  `serialize_spatial_feature`;
* `src/app/api/spatial_query.py` — the five spatial query endpoints,
  `serialize_spatial_row`, its own copy of `validate_table_name`;
* `src/app/api/spatial_table.py` — dynamic table create/list/describe/drop;
* `src/app/crud/spatial.py` — `CRUDSpatial` (validation, update,
  GeoPackage import);
* `src/app/api/geopackage_import.py` — the upload endpoint.

Database execution is abstracted: the store's reply (result rows, or an
execution failure) is passed to each modelled endpoint as an explicit
argument, and everything the gateway itself computes (validation, SQL text
construction, row normalization, error mapping) is modelled faithfully.
-/

namespace Orata

/-! ## Identifier validation

Both `app/api/spatial.py` and `app/api/spatial_query.py` define
`validate_table_name`, and `app/crud/spatial.py` defines
`CRUDSpatial._validate_table_name`; all three run
`re.match(r"^[a-zA-Z_][a-zA-Z0-9_]*$", name)` and raise
`HTTPException(400, "Invalid table name")` when it fails.

Python's `re.match` with a pattern ending in `$` also succeeds when the
subject is a matching core followed by one final newline, because `$`
matches just before a trailing newline.  `isIdentStrict` is the anchored
pattern in its standard (strict, end-of-text) reading; `reMatchIdent` is
the Python semantics actually executed by the code.
-/

def isIdentFirst (c : Char) : Bool :=
  (Char.ofNat 97 ≤ c && c ≤ Char.ofNat 122) ||
  (Char.ofNat 65 ≤ c && c ≤ Char.ofNat 90) ||
  c = Char.ofNat 95

def isIdentRest (c : Char) : Bool :=
  isIdentFirst c || (Char.ofNat 48 ≤ c && c ≤ Char.ofNat 57)

/-- Strict anchored match of the pattern `^[A-Za-z_][A-Za-z0-9_]*$`:
the whole string is one leading identifier character followed by
identifier characters. -/
def isIdentStrict (s : String) : Bool :=
  match s.data with
  | [] => false
  | c :: cs => isIdentFirst c && cs.all isIdentRest

/-- Python `re.match` of the same pattern: `$` also matches just before a
single trailing newline, so a matching core followed by one final newline
is accepted as well. -/
def reMatchIdent (s : String) : Bool :=
  isIdentStrict s ||
    (match s.data.getLast? with
     | some c => c = Char.ofNat 10 && isIdentStrict (String.mk s.data.dropLast)
     | none => false)

/-- HTTP error as raised by `HTTPException(status_code, detail)`. -/
structure HErr where
  status : Nat
  detail : String
deriving DecidableEq, Repr

instance {ε α : Type} [DecidableEq ε] [DecidableEq α] : DecidableEq (Except ε α) :=
  fun a b =>
    match a, b with
    | Except.ok x, Except.ok y =>
      if h : x = y then isTrue (by rw [h]) else isFalse (by intro hc; cases hc; exact h rfl)
    | Except.error x, Except.error y =>
      if h : x = y then isTrue (by rw [h]) else isFalse (by intro hc; cases hc; exact h rfl)
    | Except.ok _, Except.error _ => isFalse (by intro hc; cases hc)
    | Except.error _, Except.ok _ => isFalse (by intro hc; cases hc)

/-- `validate_table_name` from `app/api/spatial.py` lines 66-69 and
`app/api/spatial_query.py` lines 178-181; `CRUDSpatial._validate_table_name`
(`app/crud/spatial.py` lines 24-27) is the identical check. -/
def validate_table_name (table_name : String) : Except HErr String :=
  if reMatchIdent table_name then Except.ok table_name
  else Except.error ⟨400, "Invalid table name"⟩

/-- Pydantic `pattern=r"^[a-zA-Z_][a-zA-Z0-9_]*$"` on
`SpatialTableCreateRequest.table_name` and `FieldDefinition.name`
(`app/api/spatial_table.py` lines 12-23).  Pydantic v2 compiles the pattern
with the Rust regex engine, whose `$` matches only at the end of the
haystack, so this is the strict reading. -/
def pydanticIdentMatch (s : String) : Bool :=
  isIdentStrict s

/-- Validation of an extra-column name (`FieldDefinition.name`,
`app/api/spatial_table.py` line 13): a value failing the pydantic
`pattern` makes request-body validation fail, surfaced by FastAPI as a
422 validation error before the endpoint body runs; an accepted name is
carried into the request object unchanged. -/
def validate_field_name (s : String) : Except HErr String :=
  if pydanticIdentMatch s then Except.ok s
  else Except.error ⟨422, "String should match pattern"⟩

/-! ## Dynamic table gateway (`app/api/spatial_table.py`)

`create_spatial_table` builds the column list
`id SERIAL PRIMARY KEY, <extra fields>, geometry geometry(TYPE, SRID) NOT NULL`
and interpolates the lowercased (pydantic-validated) table name into a
`CREATE TABLE IF NOT EXISTS` statement.  `delete_spatial_table` interpolates
the raw path segment into `DROP TABLE IF EXISTS ... CASCADE` without any
validation.  `describe_spatial_table` passes the name as a bound parameter
and never interpolates it.
-/

/-- `FieldDefinition` (`app/api/spatial_table.py` lines 12-15).  `nullable`
is `Optional[bool] = True`, so an explicit JSON `null` arrives as `none`. -/
structure FieldDefinition where
  name : String
  ftype : String
  nullable : Option Bool
deriving DecidableEq, Repr

/-- The six values of the `geometry_type` literal field. -/
inductive GeomType where
  | POINT | LINESTRING | POLYGON | MULTIPOINT | MULTILINESTRING | MULTIPOLYGON
deriving DecidableEq, Repr

def GeomType.toStr : GeomType → String
  | .POINT => "POINT"
  | .LINESTRING => "LINESTRING"
  | .POLYGON => "POLYGON"
  | .MULTIPOINT => "MULTIPOINT"
  | .MULTILINESTRING => "MULTILINESTRING"
  | .MULTIPOLYGON => "MULTIPOLYGON"

/-- `SpatialTableCreateRequest` (`app/api/spatial_table.py` lines 17-23).
`table_name` and every field name have already passed the pydantic
`pattern` check when a request object exists. -/
structure SpatialTableCreateRequest where
  table_name : String
  geometry_type : GeomType
  srid : Int
  fields : List FieldDefinition
deriving DecidableEq, Repr

/-- One entry of `field_sql`: `f"{field.name} {field.type} {nullable}"`
where `nullable` is `"NULL" if field.nullable else "NOT NULL"` (Python
truthiness: `None` and `False` both yield `NOT NULL`). -/
def fieldSQL (f : FieldDefinition) : String :=
  f.name ++ " " ++ f.ftype ++ " " ++
    (match f.nullable with
     | some true => "NULL"
     | _ => "NOT NULL")

/-- The geometry column entry
`f"geometry geometry({geometry_type}, {srid}) NOT NULL"`; `geometry_type`
is already upper case (a literal), so `.upper()` is the identity on it. -/
def geometryColumnSQL (req : SpatialTableCreateRequest) : String :=
  "geometry geometry(" ++ req.geometry_type.toStr ++ ", " ++
    toString req.srid ++ ") NOT NULL"

/-- The `columns` list of `create_spatial_table`
(`app/api/spatial_table.py` lines 39-43): `id SERIAL PRIMARY KEY`, then
`*field_sql`, then the geometry column. -/
def tableColumns (req : SpatialTableCreateRequest) : List String :=
  "id SERIAL PRIMARY KEY" :: (req.fields.map fieldSQL ++ [geometryColumnSQL req])

/-- The generated `CREATE TABLE` text (`app/api/spatial_table.py` line 44);
the interpolated name is `req.table_name.lower()`. -/
def create_table_sql (req : SpatialTableCreateRequest) : String :=
  "CREATE TABLE IF NOT EXISTS " ++ req.table_name.toLower ++ " (" ++
    String.intercalate ", " (tableColumns req) ++ ")"

/-- The `DROP TABLE` text built by `delete_spatial_table`
(`app/api/spatial_table.py` line 89): the raw path segment is interpolated
with no validation of any kind. -/
def delete_spatial_table_sql (table_name : String) : String :=
  "DROP TABLE IF EXISTS " ++ table_name ++ " CASCADE"

/-! ## Which operations interpolate a user-supplied table name -/

/-- The HTTP operations that receive a user-supplied table name: the five
feature CRUD endpoints (`app/api/spatial.py`), the five spatial query
endpoints (`app/api/spatial_query.py`), and table create / describe / drop
(`app/api/spatial_table.py`). -/
inductive Op where
  | createFeature | getFeature | listFeatures | updateFeature | deleteFeature
  | qIntersects | qWithin | qBbox | qDistance | qBuffer
  | tableCreate | tableDescribe | tableDrop
deriving DecidableEq, Repr

/-- Whether the operation, given this table name, reaches the point where
the name is placed into generated SQL query text.  Feature CRUD and all
five query endpoints run `validate_table_name` (Python `re.match`) first
and raise 400 before building any SQL on failure.  `tableCreate` only
constructs a request object when the pydantic pattern accepted the name.
`tableDescribe` binds the name as a query parameter and never interpolates
it.  `tableDrop` interpolates unconditionally. -/
def nameInterpolated (op : Op) (name : String) : Bool :=
  match op with
  | .createFeature | .getFeature | .listFeatures | .updateFeature
  | .deleteFeature | .qIntersects | .qWithin | .qBbox | .qDistance
  | .qBuffer => reMatchIdent name
  | .tableCreate => pydanticIdentMatch name
  | .tableDescribe => false
  | .tableDrop => true

/-! ## JSON request bodies

The query endpoints declare their bodies as plain `dict` parameters, so a
body is an arbitrary JSON value.  Numbers are modelled as integers: no
modelled claim depends on fractional values. -/

inductive PyVal where
  | pnull
  | pbool (b : Bool)
  | pnum (n : Int)
  | pstr (s : String)
  | plist (xs : List PyVal)
  | pdict (kvs : List (String × PyVal))

/-- Python `isinstance(v, dict)`. -/
def PyVal.isDict : PyVal → Bool
  | .pdict _ => true
  | _ => false

/-- Python `d.get(k)` on a dict (and `None` on anything else). -/
def dictGet : PyVal → String → Option PyVal
  | .pdict kvs, k => kvs.lookup k
  | _, _ => none

/-- Python `k in d` on a dict. -/
def dictHasKey (v : PyVal) (k : String) : Bool :=
  (dictGet v k).isSome

/-- Python truthiness of a JSON value (`not x`). -/
def pyTruthy : PyVal → Bool
  | .pnull => false
  | .pbool b => b
  | .pnum n => !(n = 0)
  | .pstr s => !(s = "")
  | .plist xs => !xs.isEmpty
  | .pdict kvs => !kvs.isEmpty

/-- Whether a JSON value is numeric (the bound of a well-formed bbox). -/
def isNumericVal : PyVal → Bool
  | .pnum _ => true
  | _ => false

/-- The wrapper form of a geometry body: the object with the single member
`geometry` holding the bare geometry. -/
def wrapGeo (g : PyVal) : PyVal :=
  .pdict [("geometry", g)]

/-- The unwrap step of `query_intersects` and `query_within`
(`app/api/spatial_query.py` lines 123-126 and 194-197):
`geometry["geometry"]` when the key is present and maps to a dict, the
body itself otherwise. -/
def unwrapGeometry (geometry : PyVal) : PyVal :=
  match dictGet geometry "geometry" with
  | some g => if g.isDict then g else geometry
  | none => geometry

/-! ## Result rows and `serialize_spatial_row`

A result row is the `row._mapping` view: column names to values.  The
geometry column may arrive in several runtime shapes
(`WKBElement`/`WKTElement`, an already-decoded shapely geometry, a hex
string, raw WKB bytes, or anything else); each shape carries the geometry
it decodes to, `none` when the decode in the Python code would raise.
Coordinates are carried as a flat payload: the `tuples_to_lists`
normalization of the mapping output rewrites tuple nesting to list
nesting and no modelled claim observes the nesting, so the model's
decoded mapping is already in normalized form. -/

/-- A decoded GeoJSON geometry mapping (`mapping(...)` output, after
`tuples_to_lists`). -/
structure GeoObj where
  gtype : String
  coords : List Int
deriving DecidableEq, Repr

/-- One column value of a result row. -/
inductive CellVal where
  /-- SQL NULL / Python `None`. -/
  | vnull
  /-- an integer value (for example the `id` column). -/
  | vint (n : Int)
  /-- a text value; `hexDec` is what `wkb.loads(bytes.fromhex(s))` would
  decode it to when the code treats it as a geometry column (`none` when
  that call raises). -/
  | vstr (s : String) (hexDec : Option GeoObj)
  /-- a `WKBElement`/`WKTElement`; `to_shape` then `mapping` yields `g`. -/
  | vwkbElement (g : GeoObj)
  /-- an already-decoded shapely `BaseGeometry`; `mapping` yields `g`. -/
  | vshapely (g : GeoObj)
  /-- raw WKB bytes; `dec` is the `wkb.loads` result, `none` on bad WKB. -/
  | vbytes (dec : Option GeoObj)
  /-- any other runtime value; `dec` is the fallback `to_shape` result,
  `none` when it raises. -/
  | vother (dec : Option GeoObj)
deriving DecidableEq, Repr

/-- A result row: `row._mapping` as an association list. -/
abbrev Row := List (String × CellVal)

/-- `data.get(k)` with the `is None` checks of the code folded in: a
missing column and a SQL NULL are both Python `None`, so both yield
`none`. -/
def rowGet (row : Row) (k : String) : Option CellVal :=
  match row.lookup k with
  | some CellVal.vnull => none
  | some v => some v
  | none => none

/-- The geometry-column decode of `serialize_spatial_row`
(`app/api/spatial_query.py` lines 58-82): dispatch on the runtime shape;
strings are read as hex WKB, bytes as raw WKB, anything unrecognized goes
through the `to_shape` fallback; every failing decode raises `ValueError`. -/
def decodeGeometryCell : CellVal → Except String GeoObj
  | .vwkbElement g => Except.ok g
  | .vshapely g => Except.ok g
  | .vstr s dec =>
    match dec with
    | some g => Except.ok g
    | none => Except.error ("Cannot deserialize geometry from string: " ++ s)
  | .vbytes dec =>
    match dec with
    | some g => Except.ok g
    | none => Except.error "Cannot deserialize geometry from bytes."
  | .vother dec =>
    match dec with
    | some g => Except.ok g
    | none => Except.error "Cannot serialize geometry"
  | .vint _ => Except.error "Cannot serialize geometry"
  | .vnull => Except.error "Cannot serialize geometry"

/-- A GeoJSON Feature dictionary as returned by `serialize_spatial_row`
(the constant `"type": "Feature"` member is left implicit). -/
structure Feature where
  id : CellVal
  geometry : GeoObj
  properties : List (String × CellVal)
deriving DecidableEq, Repr

/-- `serialize_spatial_row` (`app/api/spatial_query.py` lines 28-99):
`id` and `geometry` are mandatory (`ValueError` when `None`), the
geometry column is decoded per its runtime shape, and `properties` is
built from exactly the optional `name` and `description` columns, each
included only when non-null.  Other columns of the row are not consulted. -/
def serialize_spatial_row (row : Row) : Except String Feature :=
  match rowGet row "id" with
  | none => Except.error "Row is missing the mandatory 'id' column."
  | some id_ =>
    match rowGet row "geometry" with
    | none => Except.error "Row is missing the mandatory 'geometry' column."
    | some geometry_col =>
      let name := rowGet row "name"
      let description := rowGet row "description"
      match decodeGeometryCell geometry_col with
      | Except.error e => Except.error e
      | Except.ok geom =>
        let properties :=
          (match name with
           | some v => [("name", v)]
           | none => []) ++
          (match description with
           | some v => [("description", v)]
           | none => [])
        Except.ok ⟨id_, geom, properties⟩

/-- The per-row loop shared verbatim by `query_intersects`,
`query_within`, `query_distance` and `query_buffer`
(`app/api/spatial_query.py` lines 144-174, 217-247, 337-367, 402-432):
each row is serialized inside `try`; any exception skips the row and the
loop continues.  The post-serialization checks (`geometry` present and a
dict, `id` not `None`) cannot fire on a successful serialization, whose
output always has both. -/
def processRowsSkip : List Row → List Feature
  | [] => []
  | r :: rs =>
    match serialize_spatial_row r with
    | Except.ok f => f :: processRowsSkip rs
    | Except.error _ => processRowsSkip rs

/-- The bbox result processing
(`app/api/spatial_query.py` line 301): a list comprehension inside a
`try` whose `except` raises `HTTPException(500)`, so the first failing
row aborts the whole request. -/
def serializeAll : List Row → Except String (List Feature)
  | [] => Except.ok []
  | r :: rs =>
    match serialize_spatial_row r with
    | Except.error e => Except.error e
    | Except.ok f =>
      match serializeAll rs with
      | Except.error e => Except.error e
      | Except.ok fs => Except.ok (f :: fs)

/-! ## The five spatial query endpoints (`app/api/spatial_query.py`)

Each endpoint validates the table name, derives the GeoJSON (or bbox) it
binds into a parameterized statement, interpolates the validated table
name into the statement text, executes, and post-processes the rows.  The
store's reply is an explicit argument: `Except.error msg` models
`db.execute` raising with message `msg`, `Except.ok rows` models a
fetched row list. -/

/-- The statement text of `query_intersects`
(`app/api/spatial_query.py` lines 128-139). -/
def intersectsSQL (t : String) : String :=
  "\n        SELECT \n            \"" ++ t ++ "\".id as id,\n            \"" ++
    t ++ "\".name as name,\n            \"" ++ t ++
    "\".description as description,\n            \"" ++ t ++
    "\".geometry as geometry\n        FROM " ++ t ++
    "\n        WHERE ST_Intersects(\n            \"" ++ t ++
    "\".geometry,\n            ST_SetSRID(ST_GeomFromGeoJSON(:geojson), 4326)\n        )\n    "

/-- The statement text of `query_within`
(`app/api/spatial_query.py` lines 201-212). -/
def withinSQL (t : String) : String :=
  "\n        SELECT \n            \"" ++ t ++ "\".id as id,\n            \"" ++
    t ++ "\".name as name,\n            \"" ++ t ++
    "\".description as description,\n            \"" ++ t ++
    "\".geometry as geometry\n        FROM " ++ t ++
    "\n        WHERE ST_Intersects(\n            \"" ++ t ++
    "\".geometry,\n            ST_SetSRID(ST_GeomFromGeoJSON(:geojson), 4326)\n        )\n    "

/-- A parameterized statement as submitted to the store: the SQL text with
the table name interpolated, and the GeoJSON value bound at `:geojson`. -/
structure DbCall where
  sql : String
  boundGeojson : PyVal

/-- `query_intersects` (`app/api/spatial_query.py` lines 112-174):
validate the table name (400 on failure), unwrap an optional
`geometry` wrapper, build the statement, execute (a raised execution
error becomes 422 `Invalid geometry`), then run the skip-on-failure row
loop. -/
def query_intersects (table_name : String) (geometry : PyVal)
    (exec : Except String (List Row)) : Except HErr (DbCall × List Feature) :=
  match validate_table_name table_name with
  | Except.error e => Except.error e
  | Except.ok t =>
    let geojson := unwrapGeometry geometry
    match exec with
    | Except.error msg => Except.error ⟨422, "Invalid geometry: " ++ msg⟩
    | Except.ok rows => Except.ok (⟨intersectsSQL t, geojson⟩, processRowsSkip rows)

/-- `query_within` (`app/api/spatial_query.py` lines 183-247): identical
to `query_intersects` line for line (the `WHERE` clause also uses
`ST_Intersects`, by the in-code design note on point-degenerate
`ST_Within`). -/
def query_within (table_name : String) (geometry : PyVal)
    (exec : Except String (List Row)) : Except HErr (DbCall × List Feature) :=
  match validate_table_name table_name with
  | Except.error e => Except.error e
  | Except.ok t =>
    let geojson := unwrapGeometry geometry
    match exec with
    | Except.error msg => Except.error ⟨422, "Invalid geometry: " ++ msg⟩
    | Except.ok rows => Except.ok (⟨withinSQL t, geojson⟩, processRowsSkip rows)

/-- What each of the five endpoints derives from its body and binds at
`:geojson` (for `bbox`: the validated bbox list).  `query_intersects` and
`query_within` unwrap the optional wrapper; `query_distance` and
`query_buffer` pass their `geometry` body field to `json.dumps`
unchanged (lines 322 and 382); `query_bbox` reads the `bbox` member and
rejects with 422 unless it is a truthy list of exactly four elements
(lines 261-263) — the elements themselves are not inspected. -/
def requestGeoData : Op → PyVal → Except HErr PyVal
  | .qIntersects, body => Except.ok (unwrapGeometry body)
  | .qWithin, body => Except.ok (unwrapGeometry body)
  | .qDistance, body => Except.ok body
  | .qBuffer, body => Except.ok body
  | _, body =>
    match dictGet body "bbox" with
    | some bbox =>
      if !pyTruthy bbox then
        Except.error ⟨422, "bbox must be a list of four numbers [minx, miny, maxx, maxy]"⟩
      else
        match bbox with
        | PyVal.plist xs =>
          if xs.length = 4 then Except.ok (PyVal.plist xs)
          else Except.error ⟨422, "bbox must be a list of four numbers [minx, miny, maxx, maxy]"⟩
        | _ => Except.error ⟨422, "bbox must be a list of four numbers [minx, miny, maxx, maxy]"⟩
    | none => Except.error ⟨422, "bbox must be a list of four numbers [minx, miny, maxx, maxy]"⟩

/-- The bbox validation step of `query_bbox` by itself
(`app/api/spatial_query.py` lines 261-263). -/
def query_bbox_validate (body : PyVal) : Except HErr PyVal :=
  requestGeoData Op.qBbox body

/-- Whether the body's `bbox` member is a list of exactly four elements —
the observable condition under which `query_bbox` proceeds. -/
def bboxIsFourList (body : PyVal) : Bool :=
  match dictGet body "bbox" with
  | some (PyVal.plist xs) => xs.length = 4
  | _ => false

/-- Outcome of a `query_bbox` request: the HTTP response and whether the
spatial query itself was submitted to the store. -/
structure BboxOutcome where
  response : Except HErr (List Feature)
  queryExecuted : Bool

/-- `query_bbox` (`app/api/spatial_query.py` lines 249-309): validate the
table name, validate the bbox shape, fetch the table's columns
(`tableCols`, via a bound-parameter information-schema query), re-raise
the missing-table / missing-column `HTTPException`s through the generic
`except` as 500s, then execute the envelope query (`exec` is the store's
reply) and serialize every row inside one `try`: the first failure turns
the whole request into a 500. -/
def query_bbox (table_name : String) (body : PyVal) (tableCols : List String)
    (exec : Except String (List Row)) : BboxOutcome :=
  match validate_table_name table_name with
  | Except.error e => ⟨Except.error e, false⟩
  | Except.ok t =>
    match query_bbox_validate body with
    | Except.error e => ⟨Except.error e, false⟩
    | Except.ok _ =>
      if tableCols.isEmpty then
        ⟨Except.error ⟨500, "Error fetching columns for table '" ++ t ++ "': 404: Table '" ++
            t ++ "' not found or has no columns."⟩, false⟩
      else if !tableCols.contains "id" then
        ⟨Except.error ⟨500, "Error fetching columns for table '" ++ t ++ "': 500: Table '" ++
            t ++ "' is missing the required 'id' column."⟩, false⟩
      else if !tableCols.contains "geometry" then
        ⟨Except.error ⟨500, "Error fetching columns for table '" ++ t ++ "': 500: Table '" ++
            t ++ "' is missing the required 'geometry' column."⟩, false⟩
      else
        match exec with
        | Except.error e => ⟨Except.error ⟨500, "Error querying features: " ++ e⟩, true⟩
        | Except.ok rows =>
          match serializeAll rows with
          | Except.error e => ⟨Except.error ⟨500, "Error querying features: " ++ e⟩, true⟩
          | Except.ok fs => ⟨Except.ok fs, true⟩

/-! ## `CRUDSpatial.update` (`app/crud/spatial.py` lines 117-172) -/

/-- A geometry arriving in a partial update: `valid` is whether
`shape(...)` / `from_shape(...)` succeed on it, `enc` the encoded result
when they do. -/
structure GeomInput where
  valid : Bool
  enc : GeoObj
deriving DecidableEq, Repr

/-- `SpatialUpdate` (`app/schemas/spatial.py` lines 61-64): all three
fields optional; a pydantic field that is absent or JSON `null` is `None`
either way. -/
structure SpatialUpdate where
  name : Option String
  description : Option String
  geometry : Option GeomInput
deriving DecidableEq, Repr

/-- `UPDATE ... SET` applied to the stored row: every column named in the
dict takes its new value, every other column keeps its value. -/
def applyUpdate (stored : Row) (dict : List (String × CellVal)) : Row :=
  stored.map (fun kv =>
    match dict.lookup kv.1 with
    | some v => (kv.1, v)
    | none => kv)

/-- Outcome of `CRUDSpatial.update`: the response, whether the UPDATE
statement was submitted to the store, and the row as stored afterwards. -/
structure UpdateOutcome where
  response : Except HErr Row
  executedUpdate : Bool
  stored : Row
deriving DecidableEq, Repr

/-- `CRUDSpatial.update` (`app/crud/spatial.py` lines 117-172):
`update_dict` collects `name`, `description` (when not `None`), then the
re-encoded geometry (422 when the re-encode raises); an empty dict raises
400 `No fields to update.` before any statement is built; otherwise the
UPDATE runs and returns the updated row.  The store is modelled as
accepting the statement (the 500 rollback path is outside the claims
proved here). -/
def CRUDSpatial.update (stored : Row) (feature : SpatialUpdate) : UpdateOutcome :=
  let d1 : List (String × CellVal) :=
    match feature.name with
    | some n => [("name", CellVal.vstr n none)]
    | none => []
  let d2 : List (String × CellVal) :=
    d1 ++ (match feature.description with
           | some d => [("description", CellVal.vstr d none)]
           | none => [])
  match feature.geometry with
  | some g =>
    if g.valid then
      let dict := d2 ++ [("geometry", CellVal.vwkbElement g.enc)]
      ⟨Except.ok (applyUpdate stored dict), true, applyUpdate stored dict⟩
    else
      ⟨Except.error ⟨422, "Invalid geometry"⟩, false, stored⟩
  | none =>
    if d2.isEmpty then
      ⟨Except.error ⟨400, "No fields to update."⟩, false, stored⟩
    else
      ⟨Except.ok (applyUpdate stored d2), true, applyUpdate stored d2⟩

/-! ## GeoPackage import (`app/crud/spatial.py` lines 198-264)

`import_geopackage_to_table` validates the derived table name FIRST, on
its own line before the `try` block; the `finally` that removes the
temporary upload file guards only the `try` body, so a name that fails
validation raises before the cleanup is armed.  Inside the `try`, the
read/detect/write steps map to the outcomes below. -/

/-- What happens when the GeoPackage is read and written: the driver
error and write failure carry the exception text interpolated into the
HTTP detail. -/
inductive GpkgOutcome where
  /-- `fiona.errors.DriverError` from `read_file`. -/
  | readError (msg : String)
  /-- the layer is empty (`ValueError` raised at line 220). -/
  | emptyLayer
  /-- no geometry column could be detected (`ValueError` at line 237). -/
  | noGeometryColumn
  /-- `to_postgis` (or any other step) raises a generic exception. -/
  | writeFailure (msg : String)
  /-- the import succeeds. -/
  | success
deriving DecidableEq, Repr

/-- Outcome of `import_geopackage_to_table`: the response and whether the
temporary upload file was removed by the end of the call. -/
structure ImportOutcome where
  response : Except HErr Unit
  tmpRemoved : Bool
deriving DecidableEq, Repr

/-- `CRUDSpatial.import_geopackage_to_table`
(`app/crud/spatial.py` lines 198-264).  `self._validate_table_name`
runs before the `try`/`finally`, so its 400 leaves the temporary file in
place; every outcome inside the `try` reaches the `finally` and removes
it. -/
def import_geopackage_to_table (table_name : String) (outcome : GpkgOutcome) :
    ImportOutcome :=
  if reMatchIdent table_name then
    match outcome with
    | GpkgOutcome.readError msg =>
      ⟨Except.error ⟨400, "Error reading GeoPackage: " ++ msg⟩, true⟩
    | GpkgOutcome.emptyLayer =>
      ⟨Except.error ⟨400, "Data error: GeoPackage layer is empty or could not be read."⟩, true⟩
    | GpkgOutcome.noGeometryColumn =>
      ⟨Except.error ⟨400,
        "Data error: Could not automatically detect the geometry column. Please ensure your GeoPackage has a valid geometry column."⟩, true⟩
    | GpkgOutcome.writeFailure msg =>
      ⟨Except.error ⟨500, "Database write or processing failed: " ++ msg⟩, true⟩
    | GpkgOutcome.success => ⟨Except.ok (), true⟩
  else
    ⟨Except.error ⟨400, "Invalid table name"⟩, false⟩

/-! ## Helper lemmas -/

theorem isIdentStrict_reMatch {s : String} (h : isIdentStrict s = true) :
    reMatchIdent s = true := by
  unfold reMatchIdent
  rw [h]
  rfl

/-! ## Claim C1 — identifier validation before interpolation -/

/-- C1 (counterexample): the claim says no operation interpolates an
unvalidated table name, but `delete_spatial_table` interpolates the raw
path segment into its `DROP TABLE` text with no check: a name that fails
the identifier pattern is interpolated verbatim. -/
theorem c1_drop_interpolates_unvalidated :
    nameInterpolated Op.tableDrop "x; DROP TABLE other; --" = true
    ∧ reMatchIdent "x; DROP TABLE other; --" = false
    ∧ isIdentStrict "x; DROP TABLE other; --" = false
    ∧ delete_spatial_table_sql "x; DROP TABLE other; --" =
        "DROP TABLE IF EXISTS x; DROP TABLE other; -- CASCADE" := by
  refine ⟨rfl, by decide, by decide, rfl⟩

/-- C1 (amended): every HTTP operation that builds SQL query text
containing a user-supplied table name checks the name against the
identifier pattern before interpolating it — except table drop, which
interpolates the raw unvalidated name (and table describe, which never
interpolates, binding the name as a parameter instead). -/
theorem c1_interpolation_guarded (op : Op) (name : String)
    (hop : op ≠ Op.tableDrop) (h : nameInterpolated op name = true) :
    reMatchIdent name = true := by
  cases op <;> simp only [nameInterpolated] at h
  case tableDrop => exact absurd rfl hop
  case tableDescribe => exact absurd h (by simp)
  case tableCreate => exact isIdentStrict_reMatch h
  all_goals exact h

/-- C1 (witness): the amended theorem applied to the intersects query at
the concrete table name `roads`. -/
theorem c1_interpolation_guarded_witness : reMatchIdent "roads" = true :=
  c1_interpolation_guarded Op.qIntersects "roads" (by decide) (by decide)

/-! ## Claim C2 — what the identifier validators accept -/

/-- C2 (counterexample): the claim says every string that fails the
anchored pattern — including one with a trailing newline — is rejected,
but Python `re.match` lets `$` match just before a final newline, so
`"abc\n"` does not match the pattern in its strict reading yet
`validate_table_name` accepts it and returns it unchanged, newline
included. -/
theorem c2_trailing_newline_accepted :
    isIdentStrict "abc\n" = false
    ∧ validate_table_name "abc\n" = Except.ok "abc\n" := by
  exact ⟨by decide, by decide⟩

/-- C2 (amended): each of the two identifier validators accepts exactly
the strings its own regex semantics matches, and returns an accepted
string unchanged.  Extra-column names go through the pydantic `pattern`
(Rust regex, strict end-of-haystack `$`): every string not matching the
anchored pattern — a trailing-newline string included — fails, surfaced
as a 422 validation error, exactly as the claim states for column names.
Table names go through Python `re.match`, whose `$` also matches just
before one final trailing newline: non-matching strings fail with the
400 `Invalid table name` client error, but a matching core followed by
one newline is accepted rather than rejected. -/
theorem c2_validators_exact (s : String) :
    (reMatchIdent s = true → validate_table_name s = Except.ok s)
    ∧ (reMatchIdent s = false →
        validate_table_name s = Except.error ⟨400, "Invalid table name"⟩)
    ∧ (isIdentStrict s = true → validate_field_name s = Except.ok s)
    ∧ (isIdentStrict s = false →
        validate_field_name s = Except.error ⟨422, "String should match pattern"⟩) := by
  refine ⟨fun h => ?_, fun h => ?_, fun h => ?_, fun h => ?_⟩ <;>
    simp [validate_table_name, validate_field_name, pydanticIdentMatch, h]

/-- C2 (witness): the amended theorem applied at the accepted table name
`roads_2024`, the rejected table name `9bad`, the accepted column name
`color`, and the trailing-newline column name, which the pydantic
pattern rejects. -/
theorem c2_validators_exact_witness :
    validate_table_name "roads_2024" = Except.ok "roads_2024"
    ∧ validate_table_name "9bad" = Except.error ⟨400, "Invalid table name"⟩
    ∧ validate_field_name "color" = Except.ok "color"
    ∧ validate_field_name "abc\n" = Except.error ⟨422, "String should match pattern"⟩ :=
  ⟨(c2_validators_exact "roads_2024").1 (by decide),
   (c2_validators_exact "9bad").2.1 (by decide),
   (c2_validators_exact "color").2.2.1 (by decide),
   (c2_validators_exact "abc\n").2.2.2 (by decide)⟩

/-! ## Claim C3 — per-row normalization failures -/

/-- A well-formed result row: integer id and a decodable geometry. -/
def goodRow : Row :=
  [("id", CellVal.vint 1), ("geometry", CellVal.vwkbElement ⟨"Point", [100, 0]⟩)]

/-- A malformed result row: the geometry column is missing, so
normalization raises. -/
def badRow : Row := [("id", CellVal.vint 2)]

/-- The feature `goodRow` normalizes to. -/
def goodFeature : Feature := ⟨CellVal.vint 1, ⟨"Point", [100, 0]⟩, []⟩

theorem processRowsSkip_append (l1 l2 : List Row) :
    processRowsSkip (l1 ++ l2) = processRowsSkip l1 ++ processRowsSkip l2 := by
  induction l1 with
  | nil => rfl
  | cons a l ih =>
    simp only [List.cons_append, processRowsSkip]
    cases serialize_spatial_row a <;> simp [ih]

theorem serializeAll_error_of_mem (l1 l2 : List Row) (r : Row) (e : String)
    (hr : serialize_spatial_row r = Except.error e) :
    ∃ msg, serializeAll (l1 ++ r :: l2) = Except.error msg := by
  induction l1 with
  | nil => exact ⟨e, by simp [serializeAll, hr]⟩
  | cons a l ih =>
    obtain ⟨msg, hm⟩ := ih
    cases ha : serialize_spatial_row a with
    | error e2 => exact ⟨e2, by simp [serializeAll, ha]⟩
    | ok f => exact ⟨msg, by simp [serializeAll, ha, hm]⟩

/-- C3 (counterexample): the claim says every one of the five query
operations skips a row whose normalization fails and returns the rest,
but `query_bbox` serializes its rows in one comprehension inside a single
`try`, so one malformed row turns the whole request into a 500 error and
the well-formed rows are not returned. -/
theorem c3_bbox_aborts_on_one_bad_row :
    processRowsSkip [goodRow, badRow] = [goodFeature]
    ∧ (query_bbox "roads"
        (PyVal.pdict [("bbox", PyVal.plist [PyVal.pnum 0, PyVal.pnum 0, PyVal.pnum 1, PyVal.pnum 1])])
        ["id", "geometry"] (Except.ok [goodRow, badRow])).response =
      Except.error ⟨500,
        "Error querying features: Row is missing the mandatory 'geometry' column."⟩ := by
  constructor
  · decide
  · rfl

/-- C3 (amended): in `query_intersects`, `query_within`, `query_distance`
and `query_buffer` (whose shared row loop is `processRowsSkip`), a
normalization failure on one row skips exactly that row and the remaining
rows are still normalized and returned; in `query_bbox`, however, one
failing row makes the whole serialization — and with it the whole
request — fail. -/
theorem c3_failure_skips_one_row (pre post : List Row) (r : Row) (e : String)
    (hr : serialize_spatial_row r = Except.error e) :
    processRowsSkip (pre ++ r :: post) = processRowsSkip pre ++ processRowsSkip post
    ∧ ∃ msg, serializeAll (pre ++ r :: post) = Except.error msg := by
  constructor
  · rw [processRowsSkip_append]
    simp only [processRowsSkip, hr]
  · exact serializeAll_error_of_mem pre post r e hr

/-- C3 (witness): the amended theorem applied with the malformed row
between two well-formed rows. -/
theorem c3_failure_skips_one_row_witness :
    processRowsSkip ([goodRow] ++ badRow :: [goodRow]) =
      processRowsSkip [goodRow] ++ processRowsSkip [goodRow]
    ∧ ∃ msg, serializeAll ([goodRow] ++ badRow :: [goodRow]) = Except.error msg :=
  c3_failure_skips_one_row [goodRow] [goodRow] badRow
    "Row is missing the mandatory 'geometry' column." (by decide)

/-! ## Claim C4 — bare versus wrapped geometry bodies -/

/-- A bare GeoJSON point geometry object. -/
def geoPoint : PyVal :=
  PyVal.pdict [("type", PyVal.pstr "Point"),
               ("coordinates", PyVal.plist [PyVal.pnum 100, PyVal.pnum 0])]

theorem wrapGeo_ne (g : PyVal) (hk : dictHasKey g "geometry" = false) :
    wrapGeo g ≠ g := by
  intro h
  have hw : dictHasKey (wrapGeo g) "geometry" = dictHasKey g "geometry" := by rw [h]
  rw [hk] at hw
  simp [wrapGeo, dictHasKey, dictGet, List.lookup] at hw

theorem unwrap_wrap (g : PyVal) (hd : g.isDict = true) :
    unwrapGeometry (wrapGeo g) = g := by
  cases g <;> simp_all [unwrapGeometry, wrapGeo, dictGet, List.lookup, PyVal.isDict]

theorem unwrap_nokey (g : PyVal) (hk : dictHasKey g "geometry" = false) :
    unwrapGeometry g = g := by
  unfold unwrapGeometry
  cases hg : dictGet g "geometry" with
  | none => rfl
  | some v => rw [dictHasKey, hg] at hk; simp at hk

/-- C4 (counterexample): the claim says all five query operations treat a
bare geometry `g` and the wrapper around `g` as equivalent inputs, but
`query_distance` binds its `geometry` body field into the statement
unchanged — the wrapper object itself is bound instead of the geometry —
while `query_intersects` really does unwrap it. -/
theorem c4_distance_wrapper_differs :
    requestGeoData Op.qDistance (wrapGeo geoPoint) ≠ requestGeoData Op.qDistance geoPoint
    ∧ requestGeoData Op.qIntersects (wrapGeo geoPoint) =
        requestGeoData Op.qIntersects geoPoint := by
  constructor
  · intro h
    have h2 : Except.ok (ε := HErr) (wrapGeo geoPoint) = Except.ok geoPoint := h
    exact wrapGeo_ne geoPoint (by decide) (Except.ok.inj h2)
  · rfl

/-- C4 (amended): for every bare geometry object (a dict without a
`geometry` or `bbox` member), intersects and within accept the bare and
the wrapped form equivalently, and bbox rejects both forms identically
(it reads only the `bbox` member); but distance and buffer bind the
wrapped object itself at `:geojson`, so for them the two forms are
different inputs. -/
theorem c4_wrapper_equivalence (g : PyVal) (hd : g.isDict = true)
    (hk : dictHasKey g "geometry" = false) (hb : dictHasKey g "bbox" = false) :
    requestGeoData Op.qIntersects (wrapGeo g) = requestGeoData Op.qIntersects g
    ∧ requestGeoData Op.qWithin (wrapGeo g) = requestGeoData Op.qWithin g
    ∧ requestGeoData Op.qBbox (wrapGeo g) = requestGeoData Op.qBbox g
    ∧ requestGeoData Op.qDistance (wrapGeo g) ≠ requestGeoData Op.qDistance g
    ∧ requestGeoData Op.qBuffer (wrapGeo g) ≠ requestGeoData Op.qBuffer g := by
  have huw : unwrapGeometry (wrapGeo g) = g := unwrap_wrap g hd
  have hug : unwrapGeometry g = g := unwrap_nokey g hk
  have hbw : dictGet (wrapGeo g) "bbox" = none := by
    simp [wrapGeo, dictGet, List.lookup]
  have hbg : dictGet g "bbox" = none := by
    rw [dictHasKey] at hb
    cases hx : dictGet g "bbox" with
    | none => rfl
    | some v => rw [hx] at hb; simp at hb
  refine ⟨?_, ?_, ?_, ?_, ?_⟩
  · simp [requestGeoData, huw, hug]
  · simp [requestGeoData, huw, hug]
  · simp [requestGeoData, hbw, hbg]
  · intro h
    have h2 : Except.ok (ε := HErr) (wrapGeo g) = Except.ok g := h
    exact wrapGeo_ne g hk (Except.ok.inj h2)
  · intro h
    have h2 : Except.ok (ε := HErr) (wrapGeo g) = Except.ok g := h
    exact wrapGeo_ne g hk (Except.ok.inj h2)

/-- C4 (witness): the amended theorem applied to the concrete bare point
geometry. -/
theorem c4_wrapper_equivalence_witness :
    requestGeoData Op.qIntersects (wrapGeo geoPoint) = requestGeoData Op.qIntersects geoPoint
    ∧ requestGeoData Op.qWithin (wrapGeo geoPoint) = requestGeoData Op.qWithin geoPoint
    ∧ requestGeoData Op.qBbox (wrapGeo geoPoint) = requestGeoData Op.qBbox geoPoint
    ∧ requestGeoData Op.qDistance (wrapGeo geoPoint) ≠ requestGeoData Op.qDistance geoPoint
    ∧ requestGeoData Op.qBuffer (wrapGeo geoPoint) ≠ requestGeoData Op.qBuffer geoPoint :=
  c4_wrapper_equivalence geoPoint (by decide) (by decide) (by decide)

/-! ## Claim C5 — which columns reach `properties` -/

/-- A row with a non-null user-defined column `color` beyond `id` and
`geometry`. -/
def rowColor : Row :=
  [("id", CellVal.vint 1),
   ("geometry", CellVal.vwkbElement ⟨"Point", [100, 0]⟩),
   ("color", CellVal.vstr "red" none)]

/-- A row carrying a non-null `name` column. -/
def rowNamed : Row :=
  [("id", CellVal.vint 3),
   ("geometry", CellVal.vwkbElement ⟨"Point", [1, 2]⟩),
   ("name", CellVal.vstr "A" none)]

/-- The feature `rowNamed` normalizes to. -/
def featNamed : Feature :=
  ⟨CellVal.vint 3, ⟨"Point", [1, 2]⟩, [("name", CellVal.vstr "A" none)]⟩

/-- C5 (counterexample): the claim says every non-id, non-geometry column
with a non-null value appears in the produced properties mapping,
including user-defined columns, but `serialize_spatial_row` consults only
`name` and `description`: a row with a non-null `color` column is
accepted and its feature's properties are empty. -/
theorem c5_user_column_dropped :
    rowColor.lookup "color" = some (CellVal.vstr "red" none)
    ∧ serialize_spatial_row rowColor =
        Except.ok ⟨CellVal.vint 1, ⟨"Point", [100, 0]⟩, []⟩ := by
  exact ⟨by decide, by decide⟩

/-- C5 (amended): for every row the normalizer accepts, the produced
properties mapping holds exactly the `name` and `description` columns,
each present if and only if it is present and non-null in the source row;
every other column (user-defined fields included) is absent from
properties. -/
theorem c5_properties_name_description_only (row : Row) (f : Feature)
    (h : serialize_spatial_row row = Except.ok f) :
    f.properties.lookup "name" = rowGet row "name"
    ∧ f.properties.lookup "description" = rowGet row "description"
    ∧ ∀ k, ¬(k = "name") → ¬(k = "description") → f.properties.lookup k = none := by
  cases hid : rowGet row "id" with
  | none => rw [serialize_spatial_row, hid] at h; cases h
  | some id_ =>
  cases hg : rowGet row "geometry" with
  | none => rw [serialize_spatial_row, hid, hg] at h; cases h
  | some gc =>
  cases hd : decodeGeometryCell gc with
  | error e =>
    rw [serialize_spatial_row, hid, hg] at h
    simp only [hd] at h
    cases h
  | ok geom =>
  cases hn : rowGet row "name" with
  | none =>
    cases hdesc : rowGet row "description" with
    | none =>
      rw [serialize_spatial_row, hid, hg] at h
      simp only [hd, hn, hdesc] at h
      obtain rfl := (Except.ok.inj h).symm
      refine ⟨by simp [hn], by simp [hdesc], fun k h1 h2 => by simp⟩
    | some dv =>
      rw [serialize_spatial_row, hid, hg] at h
      simp only [hd, hn, hdesc] at h
      obtain rfl := (Except.ok.inj h).symm
      refine ⟨by simp [hn, List.lookup], by simp [hdesc, List.lookup],
        fun k h1 h2 => by
          have e1 : (k == "name") = false := beq_eq_false_iff_ne.mpr h1
          have e2 : (k == "description") = false := beq_eq_false_iff_ne.mpr h2
          simp [List.lookup, e1, e2]⟩
  | some nv =>
    cases hdesc : rowGet row "description" with
    | none =>
      rw [serialize_spatial_row, hid, hg] at h
      simp only [hd, hn, hdesc] at h
      obtain rfl := (Except.ok.inj h).symm
      refine ⟨by simp [hn, List.lookup], by simp [hdesc, List.lookup],
        fun k h1 h2 => by
          have e1 : (k == "name") = false := beq_eq_false_iff_ne.mpr h1
          have e2 : (k == "description") = false := beq_eq_false_iff_ne.mpr h2
          simp [List.lookup, e1, e2]⟩
    | some dv =>
      rw [serialize_spatial_row, hid, hg] at h
      simp only [hd, hn, hdesc] at h
      obtain rfl := (Except.ok.inj h).symm
      refine ⟨by simp [hn, List.lookup], by simp [hdesc, List.lookup],
        fun k h1 h2 => by
          have e1 : (k == "name") = false := beq_eq_false_iff_ne.mpr h1
          have e2 : (k == "description") = false := beq_eq_false_iff_ne.mpr h2
          simp [List.lookup, e1, e2]⟩

/-- C5 (witness): the amended theorem applied to the row with a `name`
column, checked at the absent key `color`. -/
theorem c5_properties_name_description_only_witness :
    featNamed.properties.lookup "name" = rowGet rowNamed "name"
    ∧ featNamed.properties.lookup "color" = none :=
  ⟨(c5_properties_name_description_only rowNamed featNamed (by decide)).1,
   (c5_properties_name_description_only rowNamed featNamed (by decide)).2.2
     "color" (by decide) (by decide)⟩

/-! ## Claim C6 — empty partial update -/

/-- C6: an update whose partial body carries no recognized field (name,
description and geometry all absent or null) fails with the 400
`No fields to update.` client error, no UPDATE statement is executed, and
the stored row is unchanged. -/
theorem c6_empty_update_rejected (stored : Row) (f : SpatialUpdate)
    (h1 : f.name = none) (h2 : f.description = none) (h3 : f.geometry = none) :
    (CRUDSpatial.update stored f).response = Except.error ⟨400, "No fields to update."⟩
    ∧ (CRUDSpatial.update stored f).executedUpdate = false
    ∧ (CRUDSpatial.update stored f).stored = stored := by
  simp [CRUDSpatial.update, h1, h2, h3]

/-- C6 (witness): the empty update applied to a concrete stored row. -/
theorem c6_empty_update_rejected_witness :
    (CRUDSpatial.update goodRow ⟨none, none, none⟩).response =
      Except.error ⟨400, "No fields to update."⟩
    ∧ (CRUDSpatial.update goodRow ⟨none, none, none⟩).executedUpdate = false
    ∧ (CRUDSpatial.update goodRow ⟨none, none, none⟩).stored = goodRow :=
  c6_empty_update_rejected goodRow ⟨none, none, none⟩ rfl rfl rfl

/-! ## Claim C7 — column order of a created table -/

/-- The column order the claim describes: id first, then the geometry
column, then the caller's extra columns.  Stated from the claim's words,
for comparison with `tableColumns` as the code builds it. -/
def claimOrderedColumns (req : SpatialTableCreateRequest) : List String :=
  "id SERIAL PRIMARY KEY" :: geometryColumnSQL req :: req.fields.map fieldSQL

/-- A create request with one extra column. -/
def reqColor : SpatialTableCreateRequest :=
  ⟨"roads", GeomType.POINT, 4326, [⟨"color", "VARCHAR(10)", some true⟩]⟩

/-- C7 (counterexample): the claim puts the geometry column second, right
after `id`, but the code appends it last, after the caller's extra
columns: with one extra column the generated order is id, extra column,
geometry. -/
theorem c7_geometry_column_is_last :
    tableColumns reqColor ≠ claimOrderedColumns reqColor
    ∧ tableColumns reqColor =
        ["id SERIAL PRIMARY KEY", "color VARCHAR(10) NULL",
         "geometry geometry(POINT, 4326) NOT NULL"] := by
  refine ⟨by decide, by decide⟩

/-- C7 (amended): every created table's schema lists the
auto-incrementing primary-key column `id` first, then the caller's extra
columns in caller order with caller-specified nullability, and the
geometry column typed by the requested geometry type and SRID last. -/
theorem c7_column_order (req : SpatialTableCreateRequest) :
    (tableColumns req).head? = some "id SERIAL PRIMARY KEY"
    ∧ (tableColumns req).getLast? = some (geometryColumnSQL req)
    ∧ ((tableColumns req).drop 1).dropLast = req.fields.map fieldSQL := by
  refine ⟨rfl, ?_, ?_⟩
  · show ("id SERIAL PRIMARY KEY" :: (req.fields.map fieldSQL ++ [geometryColumnSQL req])).getLast? = _
    rw [← List.cons_append, List.getLast?_concat]
  · show (req.fields.map fieldSQL ++ [geometryColumnSQL req]).dropLast = _
    rw [List.dropLast_concat]

/-! ## Claim C8 — bbox validation -/

/-- A bbox body whose four bounds include a non-numeric element. -/
def bboxBadBody : PyVal :=
  PyVal.pdict [("bbox",
    PyVal.plist [PyVal.pstr "a", PyVal.pnum 1, PyVal.pnum 2, PyVal.pnum 3])]

/-- A well-formed bbox body. -/
def bboxOkBody : PyVal :=
  PyVal.pdict [("bbox",
    PyVal.plist [PyVal.pnum 0, PyVal.pnum 0, PyVal.pnum 1, PyVal.pnum 1])]

/-- C8 (counterexample): the claim says a bbox with a non-numeric element
is rejected with 422 before any query is executed, but the check tests
only that the value is a (truthy) list of length four: a four-element
bbox containing the string `a` passes validation and the spatial query is
executed. -/
theorem c8_non_numeric_bbox_not_rejected :
    isNumericVal (PyVal.pstr "a") = false
    ∧ (query_bbox "roads" bboxBadBody ["id", "geometry"] (Except.ok [])).queryExecuted = true
    ∧ (query_bbox "roads" bboxBadBody ["id", "geometry"] (Except.ok [])).response =
        Except.ok [] := by
  refine ⟨rfl, rfl, rfl⟩

theorem query_bbox_validate_fail (body : PyVal) (h : bboxIsFourList body = false) :
    query_bbox_validate body =
      Except.error ⟨422, "bbox must be a list of four numbers [minx, miny, maxx, maxy]"⟩ := by
  rw [query_bbox_validate]
  rw [bboxIsFourList] at h
  cases hx : dictGet body "bbox" with
  | none => simp [requestGeoData, hx]
  | some v =>
    rw [hx] at h
    cases v with
    | plist xs =>
      have h2 : decide (xs.length = 4) = false := h
      have hlen : ¬(xs.length = 4) := of_decide_eq_false h2
      cases hxs : xs.isEmpty with
      | true => simp [requestGeoData, hx, pyTruthy, hxs]
      | false => simp [requestGeoData, hx, pyTruthy, hxs, hlen]
    | pnull => simp [requestGeoData, hx, pyTruthy]
    | pbool b => cases b <;> simp [requestGeoData, hx, pyTruthy]
    | pnum n => by_cases hn : n = 0 <;> simp [requestGeoData, hx, pyTruthy, hn]
    | pstr s => by_cases hs : s = "" <;> simp [requestGeoData, hx, pyTruthy, hs]
    | pdict kvs => cases hk : kvs.isEmpty <;> simp [requestGeoData, hx, pyTruthy, hk]

/-- C8 (amended): a bbox query is rejected with a 422 client error before
any query is executed unless the body's `bbox` member is a list of
exactly four elements; the length and list-ness are all that is checked —
the bounds are not tested for being numeric, so a four-element bbox with
a non-numeric element passes validation and the query is attempted. -/
theorem c8_bbox_shape_only (t : String) (body : PyVal) (cols : List String)
    (ex : Except String (List Row)) (ht : reMatchIdent t = true) :
    (bboxIsFourList body = false →
      (query_bbox t body cols ex).response =
        Except.error ⟨422, "bbox must be a list of four numbers [minx, miny, maxx, maxy]"⟩
      ∧ (query_bbox t body cols ex).queryExecuted = false)
    ∧ (bboxIsFourList body = true →
      ∃ xs, query_bbox_validate body = Except.ok (PyVal.plist xs) ∧ xs.length = 4) := by
  constructor
  · intro h
    have hv := query_bbox_validate_fail body h
    have hvt : validate_table_name t = Except.ok t := by simp [validate_table_name, ht]
    constructor <;> simp only [query_bbox, hvt, hv]
  · intro h
    rw [bboxIsFourList] at h
    cases hx : dictGet body "bbox" with
    | none => rw [hx] at h; cases h
    | some v =>
      rw [hx] at h
      cases v with
      | plist xs =>
        refine ⟨xs, ?_, by simpa using h⟩
        have hlen : xs.length = 4 := by simpa using h
        have hne : xs.isEmpty = false := by
          cases xs with
          | nil => simp at hlen
          | cons a l => rfl
        rw [query_bbox_validate]
        simp [requestGeoData, hx, pyTruthy, hne, hlen]
      | pnull => cases h
      | pbool b => cases h
      | pnum n => cases h
      | pstr s => cases h
      | pdict kvs => cases h

/-- C8 (witness): the amended theorem applied to a body without a bbox
member (rejected, query not executed) and to the well-formed bbox body
(validation succeeds). -/
theorem c8_bbox_shape_only_witness :
    ((query_bbox "roads" (PyVal.pdict []) ["id", "geometry"] (Except.ok [])).response =
        Except.error ⟨422, "bbox must be a list of four numbers [minx, miny, maxx, maxy]"⟩
      ∧ (query_bbox "roads" (PyVal.pdict []) ["id", "geometry"] (Except.ok [])).queryExecuted = false)
    ∧ ∃ xs, query_bbox_validate bboxOkBody = Except.ok (PyVal.plist xs) ∧ xs.length = 4 :=
  ⟨(c8_bbox_shape_only "roads" (PyVal.pdict []) ["id", "geometry"] (Except.ok [])
      (by decide)).1 (by decide),
   (c8_bbox_shape_only "roads" bboxOkBody ["id", "geometry"] (Except.ok [])
      (by decide)).2 (by decide)⟩

/-! ## Claim C9 — removal of the temporary upload file -/

/-- C9 (counterexample): the claim says the temporary file is removed on
every outcome including an invalid derived table name, but the name
validation runs before the `try`/`finally` that removes the file: a
GeoPackage whose file stem fails the identifier pattern leaves the
temporary file behind. -/
theorem c9_invalid_name_leaks_tmpfile :
    (import_geopackage_to_table "1bad" GpkgOutcome.success).tmpRemoved = false
    ∧ (import_geopackage_to_table "1bad" GpkgOutcome.success).response =
        Except.error ⟨400, "Invalid table name"⟩ := by
  exact ⟨by decide, by decide⟩

/-- C9 (amended): when the derived table name passes identifier
validation, the temporary upload file is removed on every outcome —
success, unreadable file, empty layer, undetectable geometry column, or
store write failure; when the derived name fails validation, the request
fails with the 400 client error and the temporary file is not removed. -/
theorem c9_tmpfile_removed_iff_name_valid (name : String) (outcome : GpkgOutcome) :
    (reMatchIdent name = true →
      (import_geopackage_to_table name outcome).tmpRemoved = true)
    ∧ (reMatchIdent name = false →
      (import_geopackage_to_table name outcome).tmpRemoved = false
      ∧ (import_geopackage_to_table name outcome).response =
          Except.error ⟨400, "Invalid table name"⟩) := by
  constructor <;> intro h
  · cases outcome <;> simp [import_geopackage_to_table, h]
  · simp [import_geopackage_to_table, h]

/-- C9 (witness): the amended theorem applied at a valid name with an
empty layer, and at an invalid name. -/
theorem c9_tmpfile_removed_iff_name_valid_witness :
    (import_geopackage_to_table "roads" GpkgOutcome.emptyLayer).tmpRemoved = true
    ∧ ((import_geopackage_to_table "bad name" GpkgOutcome.success).tmpRemoved = false
      ∧ (import_geopackage_to_table "bad name" GpkgOutcome.success).response =
          Except.error ⟨400, "Invalid table name"⟩) :=
  ⟨(c9_tmpfile_removed_iff_name_valid "roads" GpkgOutcome.emptyLayer).1 (by decide),
   (c9_tmpfile_removed_iff_name_valid "bad name" GpkgOutcome.success).2 (by decide)⟩

/-! ## Claim C10 — within is evaluated as intersects -/

/-- C10: for every table name, query body and store reply, `query_within`
returns exactly what `query_intersects` returns: the two endpoints build
byte-identical statement texts (both use the `ST_Intersects` predicate
over the same four selected columns), derive the bound GeoJSON the same
way, and run the same per-row processing — within is evaluated as
intersection, not as true spatial containment. -/
theorem c10_within_equals_intersects (t : String) (g : PyVal)
    (ex : Except String (List Row)) :
    query_within t g ex = query_intersects t g ex
    ∧ withinSQL t = intersectsSQL t :=
  ⟨rfl, rfl⟩

end Orata
